import Mathlib

/-!
# DataForge synthetic-dataset pipeline — verification development

Shallow embedding of the core generation pipeline of the DataForge
repository (`dataforge/core/dataset_generator.py`,
`dataforge/handler/mistral_handler.py`,
`dataforge/handler/kaggle_handler.py`) together with proofs and
refutations of the specification's claims about it.

Python strings are modelled as Lean `String`; the handful of `str`
operations the code uses (`strip`, `split`, `lower`, `in`, `join`,
f-string formatting of naturals) are given explicit executable
definitions over the underlying character list.  Python's global
`random` module is modelled as an explicit PRNG state threaded through
every function that draws from it; `random.seed(n)` replaces the state
by a value computed from `n` alone, which is the only property of the
real Mersenne-Twister generator the code relies on.  Floating-point
draws such as `random.uniform(a, b)` formatted with `:.2f` are modelled
as integer draws of hundredths, which preserves determinism, the digit
character set, and the absence of delimiters in the produced text.
All I/O (Kaggle search/download, `pandas.read_csv`, file writes, the
Ollama call, wall-clock time) is supplied by an explicit environment
record, with failure points modelled as `Except`/`Option`/`Bool` data.
-/

namespace DataForge

/-! ## Python string primitives -/

/-- The characters Python's `str.strip()` removes (the `\s` class). -/
def pyIsSpace (c : Char) : Bool :=
  c = ' ' || c = '\t' || c = '\n' || c = '\r' || c = '\x0b' || c = '\x0c'

/-- Python `str.strip()` : drop whitespace from both ends. -/
def pyStrip (s : String) : String :=
  ⟨(s.data.dropWhile pyIsSpace).reverse.dropWhile pyIsSpace |>.reverse⟩

/-- Split a character list at every occurrence of `sep` (Python
`str.split(sep)` for a one-character separator: always returns at least
one piece, empty pieces preserved). -/
def splitCharList (sep : Char) : List Char → List String
  | [] => [""]
  | c :: cs =>
    let rest := splitCharList sep cs
    if c = sep then "" :: rest
    else
      match rest with
      | [] => [⟨[c]⟩]
      | r :: rs => ⟨c :: r.data⟩ :: rs

/-- Python `s.split('\n')`. -/
def splitLines (s : String) : List String := splitCharList '\n' s.data

/-- Python `s.split(',')`. -/
def splitComma (s : String) : List String := splitCharList ',' s.data

/-- Python `sep.join(xs)` for a one-character-or-longer separator. -/
def pyJoin (sep : String) : List String → String
  | [] => ""
  | [x] => x
  | x :: xs => x ++ sep ++ pyJoin sep xs

/-- Python `s.lower()` (ASCII is all the code uses). -/
def pyLower (s : String) : String := ⟨s.data.map Char.toLower⟩

/-- Is `sub` a contiguous sublist of the second list? -/
def listIsInfix (sub : List Char) : List Char → Bool
  | [] => sub.isEmpty
  | c :: cs => sub.isPrefixOf (c :: cs) || listIsInfix sub cs

/-- Python `sub in s` (substring containment). -/
def pyContains (s sub : String) : Bool := listIsInfix sub.data s.data

/-- Python `',' in s`. -/
def containsComma (s : String) : Bool := s.data.contains ','

/-- ASCII alphanumeric test, `[a-zA-Z0-9]`. -/
def isAlnumAscii (c : Char) : Bool :=
  ('a' ≤ c && c ≤ 'z') || ('A' ≤ c && c ≤ 'Z') || ('0' ≤ c && c ≤ '9')

/-! ## Decimal formatting of naturals (Python `str(n)`, `f"{n:0kd}"`) -/

/-- The character of a decimal digit. -/
def digitChar (d : Nat) : Char :=
  match d with
  | 0 => '0' | 1 => '1' | 2 => '2' | 3 => '3' | 4 => '4'
  | 5 => '5' | 6 => '6' | 7 => '7' | 8 => '8' | 9 => '9'
  | _ => '*'

/-- Decimal digits of `n`, most significant first (structural recursion
on a fuel bound so that the kernel can evaluate it). -/
def natDigitsAux : Nat → Nat → List Char
  | 0, _ => []
  | fuel + 1, n =>
    if n < 10 then [digitChar n]
    else natDigitsAux fuel (n / 10) ++ [digitChar (n % 10)]

/-- Python `str(n)` for a natural number. -/
def natStr (n : Nat) : String := ⟨natDigitsAux (n + 1) n⟩

/-- Python `f"{n:02d}"`. -/
def pad2 (n : Nat) : String := if n < 10 then "0" ++ natStr n else natStr n

/-- Python `f"{n:04d}"`. -/
def pad4 (n : Nat) : String :=
  if n < 10 then "000" ++ natStr n
  else if n < 100 then "00" ++ natStr n
  else if n < 1000 then "0" ++ natStr n
  else natStr n

/-- Format a number of hundredths as Python's `f"{x:.2f}"` does for the
(always positive) values the code draws. -/
def fmt2f (cents : Nat) : String := natStr (cents / 100) ++ "." ++ pad2 (cents % 100)

/-- Format a number of tenths as `f"{x:.1f}"`. -/
def fmt1f (tenths : Nat) : String := natStr (tenths / 10) ++ "." ++ natStr (tenths % 10)

/-! ## The `random` module, modelled -/

/-- State of Python's global `random` generator.  The model is a linear
congruential stream; the code only relies on the generator being a
deterministic function of the last `random.seed` argument. -/
structure PyRandom where
  state : Nat
  deriving DecidableEq, Repr

/-- Model of `random.seed(n)` : the new state depends on `n` alone. -/
def pySeed (n : Nat) : PyRandom :=
  ⟨(n * 2654435761 + 1013904223) % 4294967296⟩

/-- One raw draw from the generator. -/
def pyStep (g : PyRandom) : Nat × PyRandom :=
  let s := (g.state * 1664525 + 1013904223) % 4294967296
  (s, ⟨s⟩)

/-- Model of `random.randint(a, b)` (inclusive bounds, `a ≤ b` in every call site). -/
def pyRandint (a b : Nat) (g : PyRandom) : Nat × PyRandom :=
  let r := pyStep g
  (a + r.1 % (b + 1 - a), r.2)

/-- Model of `random.choice(xs)` on a nonempty literal list. -/
def pyChoice (xs : List String) (g : PyRandom) : String × PyRandom :=
  let r := pyStep g
  (xs.getD (r.1 % xs.length) "", r.2)

/-- Model of `f"{random.uniform(a, b):.2f}"` : a draw of hundredths in
`[100a, 100b]`, formatted with two decimals. -/
def pyUniform2f (a b : Nat) (g : PyRandom) : String × PyRandom :=
  let r := pyRandint (100 * a) (100 * b) g
  (fmt2f r.1, r.2)

/-- Model of `f"{random.uniform(a, b):.1f}"` : a draw of tenths in
`[10a, 10b]`, formatted with one decimal. -/
def pyUniform1f (a b : Nat) (g : PyRandom) : String × PyRandom :=
  let r := pyRandint (10 * a) (10 * b) g
  (fmt1f r.1, r.2)

/-! ## Data model

`Schema` mirrors the dict produced by `_extract_enhanced_schema` /
`_get_fallback_schema`: a `columns` list of per-column dicts, a
`sample_data` mapping, and an optional `domain` key (the two
domain-specific fallback schemas omit it).  The per-column statistics
(`unique_values`, `null_count`, `min/max/mean_value`) that extraction
stores are never read by any later step of the pipeline and are not
modelled. -/

structure ColumnSpec where
  name : String
  dtype : String
  sample_value : String
  deriving DecidableEq, Repr

structure Schema where
  columns : List ColumnSpec
  sample_data : List (String × String)
  domain : Option String
  deriving DecidableEq, Repr

/-- One column of the pandas frame returned by
`pd.read_csv(dataset_path, nrows=20)`: the raw column label, the
pandas-inferred dtype string, and `str(df[col].iloc[0])` (empty when the
frame has no rows).  The frame itself is external-library output, so it
is environment data. -/
structure RefColumn where
  rawName : String
  dtype : String
  firstValue : String
  deriving DecidableEq, Repr

structure RefTable where
  cols : List RefColumn
  deriving DecidableEq, Repr

/-- Embedding of `_extract_enhanced_schema`, success path: one `ColumnSpec` per frame
column, name stripped, `sample_data` keyed by the raw column label. -/
def extractFromTable (t : RefTable) (keyword : String) : Schema :=
  { columns := t.cols.map fun c => ⟨pyStrip c.rawName, c.dtype, c.firstValue⟩
    sample_data := t.cols.map fun c => (c.rawName, c.firstValue)
    domain := some keyword }

/-- Embedding of `_get_fallback_schema`: the built-in catalog keyed by
`keyword.lower()`, with a generic default. -/
def fallbackSchema (keyword : String) : Schema :=
  if pyLower keyword = "healthcare" then
    { columns := [⟨"patient_id", "int64", "1001"⟩, ⟨"age", "int64", "45"⟩,
                  ⟨"diagnosis", "object", "Hypertension"⟩,
                  ⟨"treatment_cost", "float64", "2500.50"⟩]
      sample_data := [], domain := none }
  else if pyLower keyword = "finance" then
    { columns := [⟨"account_id", "object", "ACC001"⟩, ⟨"balance", "float64", "15000.75"⟩,
                  ⟨"transaction_type", "object", "credit"⟩,
                  ⟨"amount", "float64", "1200.00"⟩]
      sample_data := [], domain := none }
  else
    { columns := [⟨"id", "int64", "1"⟩, ⟨"name", "object", "Sample Item"⟩,
                  ⟨"value", "float64", "100.0"⟩, ⟨"category", "object", "Category A"⟩]
      sample_data := [], domain := some keyword }

/-- Embedding of `_extract_enhanced_schema` including its `except` branch: a failed
`read_csv` (modelled as `none`) falls back to the catalog schema. -/
def extractEnhancedSchema (table : Option RefTable) (keyword : String) : Schema :=
  match table with
  | some t => extractFromTable t keyword
  | none => fallbackSchema keyword

/-! ## `_validate_enhanced_csv` (dataset_generator) -/

/-- Embedding of `_validate_enhanced_csv`: header field count must equal the schema's
column count and the second line's field count must equal the header's;
nothing after the first two lines is inspected. -/
def validateEnhancedCsv (csvData : String) (schema : Schema) : Bool :=
  let lines := splitLines (pyStrip csvData)
  if lines.length < 2 then false
  else
    let header := splitComma (lines.getD 0 "")
    let expectedCols := schema.columns.map (·.name)
    if header.length ≠ expectedCols.length then false
    else (splitComma (lines.getD 1 "")).length == header.length

/-! ## `_generate_*_value`: the seeded fallback value generators -/

/-- Model of `f"2024-{random.randint(1,12):02d}-{random.randint(1,28):02d}"`. -/
def genDate (g : PyRandom) : String × PyRandom :=
  let r1 := pyRandint 1 12 g
  let r2 := pyRandint 1 28 r1.2
  ("2024-" ++ pad2 r1.1 ++ "-" ++ pad2 r2.1, r2.2)

/-- Embedding of `_generate_healthcare_value` (takes the already-lowered column name
and dtype; reseeds the global generator from `seed` before drawing). -/
def genHealthcareValue (colName _colType : String) (seed : Nat) (_g : PyRandom) :
    String × PyRandom :=
  let g := pySeed seed
  if pyContains colName "patient" || pyContains colName "id" then
    (natStr (1000 + seed % 10000), g)
  else if pyContains colName "age" then
    let r := pyRandint 1 95 g
    (natStr r.1, r.2)
  else if pyContains colName "diagnosis" || pyContains colName "condition" then
    pyChoice ["Hypertension", "Diabetes Type 2", "Asthma", "Arthritis",
              "Migraine", "Pneumonia", "Depression"] g
  else if pyContains colName "cost" || pyContains colName "price" then
    pyUniform2f 50 8000 g
  else if pyContains colName "date" then genDate g
  else ("Health_Value_" ++ natStr (seed % 100), g)

/-- Embedding of `_generate_finance_value`. -/
def genFinanceValue (colName _colType : String) (seed : Nat) (_g : PyRandom) :
    String × PyRandom :=
  let g := pySeed seed
  if pyContains colName "account" || pyContains colName "id" then
    ("ACC" ++ pad4 (seed % 10000), g)
  else if pyContains colName "balance" || pyContains colName "amount" then
    pyUniform2f 100 100000 g
  else if pyContains colName "type" then
    pyChoice ["Checking", "Savings", "Credit", "Investment", "Loan"] g
  else if pyContains colName "transaction" then
    pyChoice ["Deposit", "Withdrawal", "Transfer", "Payment", "Fee"] g
  else if pyContains colName "date" then genDate g
  else ("Finance_Value_" ++ natStr (seed % 100), g)

/-- Embedding of `_generate_education_value`. -/
def genEducationValue (colName _colType : String) (seed : Nat) (_g : PyRandom) :
    String × PyRandom :=
  let g := pySeed seed
  if pyContains colName "student" || pyContains colName "id" then
    ("STU" ++ pad4 (seed % 10000), g)
  else if pyContains colName "grade" || pyContains colName "score" then
    pyUniform1f 60 100 g
  else if pyContains colName "course" || pyContains colName "subject" then
    pyChoice ["Mathematics", "Science", "English", "History", "Art",
              "Computer Science", "Biology"] g
  else if pyContains colName "credit" then
    pyChoice ["1", "2", "3", "4", "5"] g
  else if pyContains colName "semester" then
    pyChoice ["Fall2024", "Spring2024", "Summer2024", "Fall2023", "Spring2025"] g
  else ("Education_Value_" ++ natStr (seed % 100), g)

/-- Embedding of `_generate_generic_value`. -/
def genGenericValue (colName colType : String) (seed : Nat) (_g : PyRandom) :
    String × PyRandom :=
  let g := pySeed seed
  if pyContains colName "id" then (natStr (1000 + seed % 10000), g)
  else if pyContains colName "name" then ("Item_" ++ natStr (seed % 1000), g)
  else if pyContains colName "email" then
    let r := pyChoice ["gmail.com", "yahoo.com", "company.com", "business.org"] g
    ("user" ++ natStr (seed % 1000) ++ "@" ++ r.1, r.2)
  else if pyContains colType "int" then
    let r := pyRandint 1 1000 g
    (natStr r.1, r.2)
  else if pyContains colType "float" then pyUniform2f 1 1000 g
  else if pyContains colName "date" then genDate g
  else ("Value_" ++ natStr (seed % 1000), g)

/-- Embedding of `_generate_enhanced_value`: lowers the column name/dtype, derives the
per-value seed `variation * 1000 + row_num`, and dispatches on the
domain keyword. -/
def genEnhancedValue (col : ColumnSpec) (rowNum : Nat) (keyword : String)
    (variation : Nat) (g : PyRandom) : String × PyRandom :=
  let colName := pyLower col.name
  let colType := pyLower col.dtype
  let seed := variation * 1000 + rowNum
  if pyContains (pyLower keyword) "health" then genHealthcareValue colName colType seed g
  else if pyContains (pyLower keyword) "finance" then genFinanceValue colName colType seed g
  else if pyContains (pyLower keyword) "education" then genEducationValue colName colType seed g
  else genGenericValue colName colType seed g

/-! ## `_generate_programmatic_enhanced` and `_create_basic_csv` -/

/-- One data row of `_generate_programmatic_enhanced`: generate a value
per column (threading the generator state) and comma-join them. -/
def buildRowValues (cols : List ColumnSpec) (rowNum : Nat) (keyword : String)
    (variation : Nat) (g : PyRandom) : List String × PyRandom :=
  match cols with
  | [] => ([], g)
  | c :: rest =>
    let r := genEnhancedValue c rowNum keyword variation g
    let rs := buildRowValues rest rowNum keyword variation r.2
    (r.1 :: rs.1, rs.2)

/-- The row loop `for row_num in range(count)` starting at `rowNum`. -/
def buildRows (cols : List ColumnSpec) (keyword : String) (variation : Nat) :
    Nat → Nat → PyRandom → List String × PyRandom
  | 0, _, g => ([], g)
  | count + 1, rowNum, g =>
    let r := buildRowValues cols rowNum keyword variation g
    let rs := buildRows cols keyword variation count (rowNum + 1) r.2
    (pyJoin "," r.1 :: rs.1, rs.2)

/-- Embedding of `_create_basic_csv`: fixed header, `min(num_rows, 50)` data rows. -/
def createBasicCsvRows (keyword : String) : Nat → Nat → PyRandom → List String × PyRandom
  | 0, _, g => ([], g)
  | count + 1, i, g =>
    let (v, g1) := pyUniform2f 10 1000 g
    let (st, g2) := pyChoice ["active", "inactive"] g1
    let row := pyJoin "," [natStr (i + 1), keyword ++ "_item_" ++ natStr (i + 1), v, st]
    let (rest, g3) := createBasicCsvRows keyword count (i + 1) g2
    (row :: rest, g3)

def createBasicCsv (numRows : Nat) (keyword : String) (g : PyRandom) :
    String × PyRandom :=
  let (rows, g') := createBasicCsvRows keyword (min numRows 50) 0 g
  (pyJoin "\n" ("id,name,value,status" :: rows), g')

/-- Embedding of `_generate_programmatic_enhanced`: header is the comma-joined column
names, followed by `min(num_rows, 200)` generated data rows; an empty
column list routes to `_create_basic_csv`. -/
def genProgrammaticEnhanced (schema : Schema) (numRows : Nat) (keyword : String)
    (variation : Nat) (g : PyRandom) : String × PyRandom :=
  if schema.columns.isEmpty then createBasicCsv numRows keyword g
  else
    let headers := schema.columns.map (·.name)
    let rs := buildRows schema.columns keyword variation (min numRows 200) 0 g
    (pyJoin "\n" (pyJoin "," headers :: rs.1), rs.2)

/-! ## Mistral handler: `_clean_csv_line`, `_clean_and_validate_csv` -/

/-- The character class of `re.sub(r'[^a-zA-Z0-9,.\-_@\s]', '', line)`:
characters that survive cleaning. -/
def isCleanSafe (c : Char) : Bool :=
  isAlnumAscii c || c = ',' || c = '.' || c = '-' || c = '_' || c = '@' || pyIsSpace c

/-- Embedding of `_clean_csv_line`: drop one leading non-alphanumeric character
(`re.sub(r'^[^a-zA-Z0-9]', '', line)`), drop every character outside the
safe set, then require a comma and at least two fields. -/
def cleanCsvLine (line : String) : Option String :=
  let l1 : String :=
    match line.data with
    | [] => line
    | c :: rest => if isAlnumAscii c then line else ⟨rest⟩
  let l2 : String := ⟨l1.data.filter isCleanSafe⟩
  if containsComma l2 && decide (2 ≤ (splitComma l2).length) then some l2 else none

/-- The selection test of `_clean_and_validate_csv`'s line loop:
`',' in line and len(line.split(',')) == expected_cols`. -/
def cleanSelect (expected : Nat) (l : String) : Bool :=
  containsComma l && ((splitComma l).length == expected)

/-- One iteration of the line loop: the first selected line becomes the
header (stripped, otherwise untouched); later selected lines pass
through `_clean_csv_line`. -/
def cleanStep (expected : Nat) (l : String) (headerFound : Bool)
    (acc : List String) : List String :=
  if cleanSelect expected l then
    if headerFound then
      match cleanCsvLine (pyStrip l) with
      | some c => c :: acc
      | none => acc
    else pyStrip l :: acc
  else acc

/-- The line loop of `_clean_and_validate_csv`; it stops once more than
101 lines are kept.  `headerFound` and `acc` (kept lines, reversed) are
the loop state. -/
def cleanLoop (expected : Nat) : List String → Bool → List String → List String
  | [], _, acc => acc.reverse
  | l :: rest, headerFound, acc =>
    let acc' := cleanStep expected l headerFound acc
    if 101 < acc'.length then acc'.reverse
    else cleanLoop expected rest (headerFound || cleanSelect expected l) acc'

/-- Embedding of `_clean_and_validate_csv`: keep at least a header and one data row,
else `None` (the model's invalid result). -/
def cleanAndValidateCsv (output : String) (schema : Schema) : Option String :=
  let lines := splitLines (pyStrip output)
  let kept := cleanLoop schema.columns.length lines false []
  if 2 ≤ kept.length then some (pyJoin "\n" kept) else none

/-! ## Mistral handler: domain generators and fallback synthesis -/

/-- Embedding of `_get_domain_generators`: a small dict of named vocabularies keyed
by substrings of the lowered keyword. -/
def mistralDomainGenerators (keyword : String) : List (String × List String) :=
  let k := pyLower keyword
  if pyContains k "health" || pyContains k "medical" then
    [("names", ["John Smith", "Sarah Johnson", "Michael Brown", "Emily Davis", "David Wilson"]),
     ("conditions", ["Hypertension", "Diabetes", "Asthma", "Arthritis", "Migraine"]),
     ("departments", ["Cardiology", "Neurology", "Orthopedics", "Pediatrics", "Emergency"])]
  else if pyContains k "finance" || pyContains k "bank" then
    [("names", ["Alice Cooper", "Bob Johnson", "Carol White", "David Lee", "Eva Martinez"]),
     ("account_types", ["Checking", "Savings", "Credit", "Investment", "Loan"]),
     ("transaction_types", ["Deposit", "Withdrawal", "Transfer", "Payment", "Fee"])]
  else if pyContains k "education" || pyContains k "school" then
    [("names", ["Alex Chen", "Maria Garcia", "James Kim", "Lisa Wang", "Tom Anderson"]),
     ("courses", ["Mathematics", "Science", "English", "History", "Art"]),
     ("majors", ["Computer Science", "Biology", "Business", "Psychology", "Engineering"])]
  else
    [("names", ["Person A", "Person B", "Person C", "Person D", "Person E"]),
     ("categories", ["Category 1", "Category 2", "Category 3", "Category 4", "Category 5"]),
     ("statuses", ["Active", "Inactive", "Pending", "Completed", "Cancelled"])]

/-- Dict lookup `generators.get(key, default)`. -/
def gensGet (gens : List (String × List String)) (key : String)
    (default : List String) : List String :=
  match gens.lookup key with
  | some v => v
  | none => default

/-- ASCII alphabetic test for `str.title()`. -/
def isAlphaAscii (c : Char) : Bool :=
  ('a' ≤ c && c ≤ 'z') || ('A' ≤ c && c ≤ 'Z')

/-- Worker for `pyTitle`: the flag records whether the previous
character was alphabetic. -/
def pyTitleGo : List Char → Bool → List Char
  | [], _ => []
  | c :: cs, prevAlpha =>
    (if isAlphaAscii c then (if prevAlpha then c.toLower else c.toUpper) else c)
      :: pyTitleGo cs (isAlphaAscii c)

/-- Python `str.title()` on the ASCII strings the code feeds it. -/
def pyTitle (s : String) : String := ⟨pyTitleGo s.data false⟩

/-- Embedding of `_generate_column_value` (mistral handler fallback; not reseeded —
it draws from the running generator state). -/
def mistralColumnValue (colName colType : String) (rowNum : Nat)
    (gens : List (String × List String)) (g : PyRandom) : String × PyRandom :=
  if pyContains colName "id" then (natStr (1000 + rowNum), g)
  else if pyContains colName "name" then pyChoice (gensGet gens "names" ["Sample Name"]) g
  else if pyContains colName "age" then
    let (n, g') := pyRandint 18 85 g
    (natStr n, g')
  else if pyContains colName "email" then
    let names := gensGet gens "names" ["user"]
    let nm := names.getD (rowNum % names.length) ""
    let (d, g') := pyChoice ["gmail.com", "yahoo.com", "company.com"] g
    (⟨(pyLower nm).data.map fun c => if c = ' ' then '.' else c⟩ ++ "@" ++ d, g')
  else if pyContains colName "date" || pyContains colName "time" then genDate g
  else if pyContains colType "int" || pyContains colName "number" then
    if pyContains colName "price" || pyContains colName "cost" || pyContains colName "amount" then
      pyUniform2f 10 1000 g
    else
      let (n, g') := pyRandint 1 1000 g
      (natStr n, g')
  else if pyContains colType "float" then pyUniform2f 1 100 g
  else if pyContains colName "category" then
    pyChoice (gensGet gens "categories" ["Category A"]) g
  else if pyContains colName "status" then
    pyChoice (gensGet gens "statuses" ["Active"]) g
  else (pyTitle colName ++ "_" ++ natStr (rowNum + 1), g)

/-- Row loop of `_generate_enhanced_fallback` (mistral handler). -/
def mistralRowValues (cols : List ColumnSpec) (rowNum : Nat)
    (gens : List (String × List String)) (g : PyRandom) : List String × PyRandom :=
  match cols with
  | [] => ([], g)
  | c :: rest =>
    let (v, g1) := mistralColumnValue (pyLower c.name) (pyLower c.dtype) rowNum gens g
    let (vs, g2) := mistralRowValues rest rowNum gens g1
    (v :: vs, g2)

def mistralRows (cols : List ColumnSpec) (gens : List (String × List String)) :
    Nat → Nat → PyRandom → List String × PyRandom
  | 0, _, g => ([], g)
  | count + 1, rowNum, g =>
    let (row, g1) := mistralRowValues cols rowNum gens g
    let (rest, g2) := mistralRows cols gens count (rowNum + 1) g1
    (pyJoin "," row :: rest, g2)

/-- Embedding of `_generate_basic_fallback`. -/
def mistralBasicRows : Nat → Nat → PyRandom → List String × PyRandom
  | 0, _, g => ([], g)
  | count + 1, i, g =>
    let (v, g1) := pyUniform2f 10 1000 g
    let (c, g2) := pyChoice ["A", "B", "C", "D", "E"] g1
    let (st, g3) := pyChoice ["active", "inactive", "pending"] g2
    let row := pyJoin "," [natStr (i + 1), "Item_" ++ natStr (i + 1), v, c, st]
    let (rest, g4) := mistralBasicRows count (i + 1) g3
    (row :: rest, g4)

def mistralBasicFallback (numRows : Nat) (g : PyRandom) : String × PyRandom :=
  let (rows, g') := mistralBasicRows (min numRows 50) 0 g
  (pyJoin "\n" ("id,name,value,category,status" :: rows), g')

/-- Embedding of `_generate_enhanced_fallback` (mistral handler): header plus
`min(num_rows, 100)` data rows. -/
def mistralEnhancedFallback (schema : Schema) (numRows : Nat) (keyword : String)
    (g : PyRandom) : String × PyRandom :=
  if schema.columns.isEmpty then mistralBasicFallback numRows g
  else
    let headers := schema.columns.map (·.name)
    let gens := mistralDomainGenerators keyword
    let (rows, g') := mistralRows schema.columns gens (min numRows 100) 0 g
    (pyJoin "\n" (pyJoin "," headers :: rows), g')

/-- Embedding of `MistralHandler.generate`: here `remote` is the raw text of the Ollama
response (`none` when the service is unavailable, the call raised, or
the response carried no text).  A sufficiently long response that cleans
successfully is returned cleaned; everything else routes to the local
fallback synthesis. -/
def mistralGenerate (remote : Option String) (schema : Schema) (numRows : Nat)
    (keyword : String) (g : PyRandom) : String × PyRandom :=
  match remote with
  | some result =>
    if result ≠ "" ∧ 50 < (pyStrip result).length then
      match cleanAndValidateCsv result schema with
      | some cleaned => (cleaned, g)
      | none => mistralEnhancedFallback schema numRows keyword g
    else mistralEnhancedFallback schema numRows keyword g
  | none => mistralEnhancedFallback schema numRows keyword g

/-- Embedding of `_generate_enhanced_dataset` (dataset_generator): take the handler's
output; if it is long enough and passes `_validate_enhanced_csv` it is
used as-is, otherwise the programmatic fallback runs. -/
def genEnhancedDataset (remote : Option String) (schema : Schema) (numRows : Nat)
    (keyword : String) (variation : Nat) (g : PyRandom) : String × PyRandom :=
  let r := mistralGenerate remote schema numRows keyword g
  if r.1 ≠ "" ∧ 50 < (pyStrip r.1).length ∧ validateEnhancedCsv r.1 schema then
    (r.1, r.2)
  else genProgrammaticEnhanced schema numRows keyword variation r.2

/-! ## The orchestrator: `DatasetGenerator.generate_datasets`

The environment supplies every external effect the run consumes:
the outcome of reference acquisition (`_get_reference_data` together
with its internal template fallback — its only escape is an exception
from template creation), the parsed reference frame (`none` models a
`read_csv` failure), directory creation, the raw Ollama response per
variation, per-variation file-write success, the value of the shared
`should_stop` flag observed at the check heading each loop iteration,
`int(time.time())` per variation, the fallback-file write in the
`except` branch, and the run's elapsed wall-clock seconds. -/

structure Env where
  refStep : Except String String
  refTable : Option RefTable
  mkdirOk : Bool
  remote : Nat → Option String
  writeOk : Nat → Bool
  stopFlag : Nat → Bool
  timestamp : Nat → Nat
  fbWriteOk : Bool
  elapsed : Nat
  rng0 : PyRandom

/-- The `results` dict of `generate_datasets` (the static `api_info`
block is omitted; `total_time` starts as `None` and is sealed in the
`finally` block). -/
structure RunResult where
  keyword : String
  reference_dataset : Option String
  generated_files : List String
  total_time : Option Nat
  deriving DecidableEq, Repr

/-- Which terminal control path the run took: the normal end of the
loop, the cooperative-stop `break`, or the `except Exception` branch.
The code stores no such field in `results`; the stop and failure paths
are observable through the status messages they emit (recorded in
`statuses`). -/
inductive Outcome
  | completed
  | stopped
  | failed
  deriving DecidableEq, Repr

/-- The run trace: the returned `results` value, the files written to
disk, the terminal control path, the status messages emitted by
`generate_datasets` itself, and the schema value handed to
`_generate_enhanced_dataset` for each started variation. -/
structure RunTrace where
  result : RunResult
  fs : List (String × String)
  outcome : Outcome
  statuses : List String
  usedSchemas : List Schema
  deriving DecidableEq, Repr

/-- The path `output_dir / f"{keyword}_synthetic_v{i+1}_{timestamp}.csv"` under
the default configured paths. -/
def generatedPath (keyword : String) (variation ts : Nat) : String :=
  "data/generated_datasets/" ++ keyword ++ "/" ++ keyword ++ "_synthetic_v"
    ++ natStr variation ++ "_" ++ natStr ts ++ ".csv"

def fallbackFilePath (keyword : String) : String :=
  "data/generated_datasets/" ++ keyword ++ "/" ++ keyword ++ "_fallback.csv"

/-- Result of the variation loop: files written, per-variation status
lines, schemas handed to generation, whether the stop flag broke the
loop, and the exception (a failed file write) if one was raised. -/
structure LoopOut where
  files : List (String × String)
  statuses : List String
  used : List Schema
  stopped : Bool
  error : Option String
  deriving Repr

/-- The loop `for i in range(num_variations)` with the cooperative stop check at
the head of each iteration; a failed write raises out of the loop. -/
def runLoop (env : Env) (schema : Schema) (numRows : Nat) (keyword : String)
    (total : Nat) : Nat → Nat → PyRandom → LoopOut × PyRandom
  | 0, _, g => (⟨[], [], [], false, none⟩, g)
  | fuel + 1, i, g =>
    if env.stopFlag i then (⟨[], ["Generation stopped by user"], [], true, none⟩, g)
    else
      let status := "Generating high-quality synthetic dataset " ++ natStr (i + 1)
        ++ " of " ++ natStr total
      let r := genEnhancedDataset (env.remote i) schema numRows keyword (i + 1) g
      let path := generatedPath keyword (i + 1) (env.timestamp i)
      if env.writeOk i then
        let rest := runLoop env schema numRows keyword total fuel (i + 1) r.2
        (⟨(path, r.1) :: rest.1.files, status :: rest.1.statuses, schema :: rest.1.used,
          rest.1.stopped, rest.1.error⟩, rest.2)
      else (⟨[], [status], [schema], false, some "file write failed"⟩, r.2)

/-- One column of random draws for `_create_enhanced_fallback`
(evaluated list comprehensions, in order). -/
def listRandints (a b : Nat) : Nat → PyRandom → List String × PyRandom
  | 0, g => ([], g)
  | n + 1, g =>
    let (x, g1) := pyRandint a b g
    let (rest, g2) := listRandints a b n g1
    (natStr x :: rest, g2)

def listChoices (xs : List String) : Nat → PyRandom → List String × PyRandom
  | 0, g => ([], g)
  | n + 1, g =>
    let (x, g1) := pyChoice xs g
    let (rest, g2) := listChoices xs n g1
    (x :: rest, g2)

def listUniform2f (a b : Nat) : Nat → PyRandom → List String × PyRandom
  | 0, g => ([], g)
  | n + 1, g =>
    let (x, g1) := pyUniform2f a b g
    let (rest, g2) := listUniform2f a b n g1
    (x :: rest, g2)

/-- Turn the column lists of a DataFrame into `n` comma-joined rows. -/
def frameRows (cols : List (List String)) (n : Nat) : List String :=
  (List.range n).map fun i => pyJoin "," (cols.map fun col => col.getD i "")

/-- Embedding of `_create_enhanced_fallback`: the CSV text `df.to_csv` writes
(header, `min(num_rows, 100)` rows, trailing newline; `round(x, 2)`
floats are rendered with two decimals). -/
def createEnhancedFallbackContent (keyword : String) (numRows : Nat)
    (g : PyRandom) : String × PyRandom :=
  let n := min numRows 100
  if pyContains (pyLower keyword) "health" then
    let ids := (List.range n).map fun i => "P" ++ pad4 (i + 1)
    let (ages, g1) := listRandints 18 85 n g
    let (conds, g2) := listChoices ["Hypertension", "Diabetes", "Asthma"] n g1
    let (costs, g3) := listUniform2f 100 5000 n g2
    (pyJoin "\n" ("patient_id,age,condition,cost"
      :: frameRows [ids, ages, conds, costs] n) ++ "\n", g3)
  else
    let ids := (List.range n).map fun i => natStr (i + 1)
    let names := (List.range n).map fun i => keyword ++ "_item_" ++ natStr (i + 1)
    let (vals, g1) := listUniform2f 10 1000 n g
    let cats := (List.range n).map fun i => "category_" ++ natStr (i % 5)
    (pyJoin "\n" ("id,name,value,category" :: frameRows [ids, names, vals, cats] n)
      ++ "\n", g1)

/-- The `except Exception` branch: when no file was generated, attempt
one enhanced fallback file; a failure of that attempt is swallowed. -/
def exceptFallback (env : Env) (keyword : String) (numRows : Nat) (g : PyRandom)
    (res : RunResult) (fs : List (String × String)) :
    RunResult × List (String × String) :=
  if res.generated_files.isEmpty then
    if env.fbWriteOk then
      let p := fallbackFilePath keyword
      let content := (createEnhancedFallbackContent keyword numRows g).1
      ({ res with generated_files := [p] }, fs ++ [(p, content)])
    else (res, fs)
  else (res, fs)

/-- The seal `{ r with total_time := elapsed }` applied in the
`finally` block. -/
def sealTime (elapsed : Nat) (r : RunResult) : RunResult :=
  { r with total_time := some elapsed }

/-- Embedding of `generate_datasets`.  A total function: every internal exception is
absorbed by the `try/except` and the `finally: return results`, so the
caller always receives a value; `total_time` is written by the seal at
the very end on every path. -/
def generateDatasets (env : Env) (keyword : String) (numRows : Nat)
    (numVariations : Nat) : RunTrace :=
  let base : RunResult := ⟨keyword, none, [], none⟩
  let searching := "Searching for " ++ keyword ++ " reference data"
  let body : RunResult × List (String × String) × Outcome × List String × List Schema :=
    match env.refStep with
    | .error e =>
      let r := exceptFallback env keyword numRows env.rng0 base []
      (r.1, r.2, .failed, [searching, "❌ Generation failed: " ++ e], [])
    | .ok refPath =>
      let res1 := { base with reference_dataset := some refPath }
      let schema := extractEnhancedSchema env.refTable keyword
      let pre := [searching, "Extracting enhanced schema"]
      if !env.mkdirOk then
        let r := exceptFallback env keyword numRows env.rng0 res1 []
        (r.1, r.2, .failed, pre ++ ["❌ Generation failed: mkdir failed"], [])
      else
        let lo := (runLoop env schema numRows keyword numVariations numVariations 0 env.rng0).1
        let g' := (runLoop env schema numRows keyword numVariations numVariations 0 env.rng0).2
        let res2 := { res1 with generated_files := lo.files.map (·.1) }
        match lo.error with
        | some e =>
          let r := exceptFallback env keyword numRows g' res2 lo.files
          (r.1, r.2, .failed, pre ++ lo.statuses ++ ["❌ Generation failed: " ++ e], lo.used)
        | none =>
          let done := "🎉 Successfully generated " ++ natStr res2.generated_files.length
            ++ " high-quality datasets"
          (res2, lo.files, (if lo.stopped then .stopped else .completed),
           pre ++ lo.statuses ++ [done], lo.used)
  ⟨sealTime env.elapsed body.1, body.2.1, body.2.2.1, body.2.2.2.1, body.2.2.2.2⟩

/-! ## Kaggle handler: `search_datasets`

A dataset object returned by `api.dataset_list` carries optional
attributes (`Option` models an absent attribute; `some 0` an attribute
that is present but falsy), and a flag modelling an exception raised
while processing that dataset.  Ratings are scaled by ten so that the
comparison against the configured `min_rating` (default `5.0`) stays in
the naturals. -/

structure KDataset where
  ref : String
  title : String
  totalBytes : Option Nat
  size : Option Nat
  usabilityRating : Option Nat
  procFail : Bool
  deriving DecidableEq, Repr

/-- The metadata dict `search_datasets` builds per accepted dataset
(the `files` attribute is never read downstream and is not modelled). -/
structure KMeta where
  ref : String
  title : String
  size : Nat
  rating : Option Nat
  deriving DecidableEq, Repr

structure KConfig where
  max_download_size_mb : Option Nat
  min_rating : Option Nat
  max_results : Option Nat
  deriving DecidableEq, Repr

/-- The fields copied into the result dict:
`getattr(ds, 'totalBytes', getattr(ds, 'size', 0))` falls through only
on a missing attribute, not on a falsy one. -/
def mkKMeta (ds : KDataset) : KMeta :=
  { ref := ds.ref, title := ds.title
    size := match ds.totalBytes with
      | some n => n
      | none => ds.size.getD 0
    rating := ds.usabilityRating }

/-- The filtering loop of `search_datasets`: a truthy `totalBytes` (else
a truthy `size`) must be under the cap, a truthy `usabilityRating` must
reach the floor, and a per-dataset exception skips that dataset. -/
def kaggleFilterLoop (maxSize minRating : Nat) : List KDataset → List KMeta
  | [] => []
  | ds :: rest =>
    if ds.procFail then kaggleFilterLoop maxSize minRating rest
    else
      let sizeOk :=
        match ds.totalBytes with
        | some n =>
          if n ≠ 0 then n < maxSize
          else
            match ds.size with
            | some m => if m ≠ 0 then m < maxSize else true
            | none => true
        | none =>
          match ds.size with
          | some m => if m ≠ 0 then m < maxSize else true
          | none => true
      let ratingOk :=
        match ds.usabilityRating with
        | some r => if r ≠ 0 then minRating ≤ r else true
        | none => true
      if sizeOk && ratingOk then mkKMeta ds :: kaggleFilterLoop maxSize minRating rest
      else kaggleFilterLoop maxSize minRating rest

/-- Embedding of `KaggleDatasetHandler.search_datasets`.  The argument
`apiResult` is the outcome of `api.dataset_list`: `none` models an
exception (network failure etc.), which the outer handler converts to an
empty list.  When filtering keeps nothing but the search returned
datasets, the first three are taken regardless (skipping those whose
processing raises), and the final list is truncated to `max_results`
(default 5). -/
def searchDatasets (cfg : KConfig) (apiResult : Option (List KDataset)) : List KMeta :=
  match apiResult with
  | none => []
  | some datasets =>
    let maxSize := cfg.max_download_size_mb.getD 200 * 1024 * 1024
    let minRating := cfg.min_rating.getD 50
    let filtered := kaggleFilterLoop maxSize minRating datasets
    let filtered :=
      if filtered.isEmpty && !datasets.isEmpty then
        (datasets.take 3).filterMap fun ds => if ds.procFail then none else some (mkKMeta ds)
      else filtered
    filtered.take (cfg.max_results.getD 5)

/-! ## Concrete inputs used by counterexamples and witnesses -/

/-- A reference frame with a single column: a perfectly ordinary CSV
(one header field) that `pd.read_csv` parses without error. -/
def oneColumnTable : RefTable := ⟨[⟨"measurement", "int64", "7"⟩]⟩

/-- A four-column schema of the shape the generic fallback produces. -/
def sampleSchema4 : Schema :=
  ⟨[⟨"id", "int64", "1"⟩, ⟨"name", "object", "Sample Item"⟩,
    ⟨"value", "float64", "100.0"⟩, ⟨"category", "object", "Category A"⟩], [], none⟩

/-- A three-column schema for the cleaning round-trip claims. -/
def sampleSchema3 : Schema :=
  ⟨[⟨"name", "object", "abc"⟩, ⟨"age", "int64", "12"⟩,
    ⟨"city", "object", "xyz"⟩], [], none⟩

/-- A remote response that is long enough, cleans to itself, and passes
validation, yet has only two data rows and a header that is not the
schema's column names. -/
def sampleRemote : String :=
  "aaaaaaaaaaaaaaaaaaaaaaaaaaaaaaaaaaaaaaaaaaaaaaaaaaaa1,b2,c3,d4\n1,2,3,4\n5,6,7,8"

/-- An environment for a plain run: reference acquisition succeeds but
the reference frame fails to parse (catalog schema), the remote service
is unavailable, writes succeed, the stop flag is never set. -/
def plainEnv : Env :=
  { refStep := Except.ok "data/reference_datasets/retail_reference.csv"
    refTable := none
    mkdirOk := true
    remote := fun _ => none
    writeOk := fun _ => true
    stopFlag := fun _ => false
    timestamp := fun _ => 1700000000
    fbWriteOk := true
    elapsed := 3
    rng0 := ⟨42⟩ }

/-- Like `plainEnv` but the stop flag becomes set from the check heading
variation 2 onwards (set while variation 1 was generating). -/
def stopEnv : Env :=
  { plainEnv with stopFlag := fun i => decide (1 ≤ i) }

/-- The string contains no newline character (so it occupies one line of
a written file). -/
def noNL (s : String) : Prop := '\n' ∉ s.data

instance noNL.instDecidable (s : String) : Decidable (noNL s) :=
  inferInstanceAs (Decidable ('\n' ∉ s.data))

/-- The string begins with an ASCII alphanumeric character. -/
def startsAlnum (s : String) : Bool :=
  match s.data with
  | [] => false
  | c :: _ => isAlnumAscii c


/-! # Support lemmas -/

theorem splitCharList_ne_nil (sep : Char) (cs : List Char) :
    splitCharList sep cs ≠ [] := by
  induction cs with
  | nil => simp [splitCharList]
  | cons c cs ih =>
    simp only [splitCharList]
    by_cases h : c = sep
    · simp [h]
    · simp only [if_neg h]
      cases hr : splitCharList sep cs with
      | nil => exact absurd hr ih
      | cons r rs => simp

theorem splitCharList_length (sep : Char) (cs : List Char) :
    (splitCharList sep cs).length = cs.count sep + 1 := by
  induction cs with
  | nil => simp [splitCharList]
  | cons c cs ih =>
    simp only [splitCharList, List.count_cons]
    by_cases h : c = sep
    · simp [h, ih]
    · simp only [if_neg h]
      cases hr : splitCharList sep cs with
      | nil => exact absurd hr (splitCharList_ne_nil sep cs)
      | cons r rs =>
        rw [hr] at ih
        simp only [List.length_cons] at ih ⊢
        have hb : (c == sep) = false := by simp [h]
        simp [hb, ih]

theorem splitComma_length_count (s : String) :
    (splitComma s).length = s.data.count ',' + 1 :=
  splitCharList_length ',' s.data

theorem two_le_splitComma_iff (s : String) :
    2 ≤ (splitComma s).length ↔ containsComma s = true := by
  rw [splitComma_length_count, containsComma]
  rw [show (s.data.contains ',' = true) ↔ ',' ∈ s.data by simp]
  rw [← List.count_pos_iff]
  omega

theorem count_dropWhile_eq (p : Char → Bool) (a : Char) (hpa : p a = false)
    (l : List Char) : (l.dropWhile p).count a = l.count a := by
  induction l with
  | nil => rfl
  | cons c cs ih =>
    rw [List.dropWhile_cons]
    by_cases hc : p c
    · have hca : (c == a) = false := by
        simp only [beq_eq_false_iff_ne, ne_eq]
        rintro rfl; rw [hc] at hpa; simp at hpa
      simp [hc, ih, List.count_cons, hca]
    · simp [hc]

theorem splitComma_pyStrip (s : String) :
    (splitComma (pyStrip s)).length = (splitComma s).length := by
  rw [splitComma_length_count, splitComma_length_count, pyStrip]
  have hsp : pyIsSpace ',' = false := by decide
  show ((s.data.dropWhile pyIsSpace).reverse.dropWhile pyIsSpace).reverse.count ',' + 1 = _
  rw [List.count_reverse, count_dropWhile_eq pyIsSpace ',' hsp,
    List.count_reverse, count_dropWhile_eq pyIsSpace ',' hsp]

theorem splitComma_filter_cleanSafe (l : List Char) :
    (splitComma ⟨l.filter isCleanSafe⟩).length = (splitComma ⟨l⟩).length := by
  rw [splitComma_length_count, splitComma_length_count]
  have hsafe : isCleanSafe ',' = true := by decide
  show (l.filter isCleanSafe).count ',' + 1 = l.count ',' + 1
  rw [List.count_filter hsafe]

theorem validateEnhancedCsv_accepts (S : Schema) (t : String)
    (h2 : 2 ≤ (splitLines (pyStrip t)).length)
    (h0 : (splitComma ((splitLines (pyStrip t)).getD 0 "")).length = S.columns.length)
    (h1 : (splitComma ((splitLines (pyStrip t)).getD 1 "")).length = S.columns.length) :
    validateEnhancedCsv t S = true := by
  unfold validateEnhancedCsv
  simp only [List.length_map]
  rw [if_neg (by omega)]
  rw [if_neg (by rw [h0]; simp)]
  rw [h1, h0]
  simp

theorem validateEnhancedCsv_rejects (S : Schema) (t : String)
    (h0 : (splitComma ((splitLines (pyStrip t)).getD 0 "")).length ≠ S.columns.length) :
    validateEnhancedCsv t S = false := by
  unfold validateEnhancedCsv
  simp only [List.length_map]
  by_cases h2 : (splitLines (pyStrip t)).length < 2
  · rw [if_pos h2]
  · rw [if_neg h2, if_pos (by rw [Ne]; exact h0)]

/-! # Claim theorems -/

/-- C3: the fallback value generator is deterministic: two calls with
identical `(column, rowIndex, keyword, variationIndex)` agree (on the
produced value and even on the resulting generator state), whatever the
global generator state was beforehand, because every domain generator
begins by reseeding the global generator with
`variation * 1000 + row_num`. -/
theorem claim_C3_fallback_value_deterministic (col : ColumnSpec) (rowNum : Nat)
    (keyword : String) (variation : Nat) (g₁ g₂ : PyRandom) :
    genEnhancedValue col rowNum keyword variation g₁
      = genEnhancedValue col rowNum keyword variation g₂ := rfl

/-- C9: the generator-level validator looks only at the first two lines
of the stripped text: whenever they both split into exactly the schema's
column count of comma-separated fields, the text is accepted — nothing
about any later line is examined. -/
theorem claim_C9_validator_first_two_lines (S : Schema) (t : String)
    (h2 : 2 ≤ (splitLines (pyStrip t)).length)
    (h0 : (splitComma ((splitLines (pyStrip t)).getD 0 "")).length = S.columns.length)
    (h1 : (splitComma ((splitLines (pyStrip t)).getD 1 "")).length = S.columns.length) :
    validateEnhancedCsv t S = true :=
  validateEnhancedCsv_accepts S t h2 h0 h1

/-- Witness for C9 at a concrete input whose third line is not CSV at
all: the validator still accepts. -/
theorem claim_C9_validator_first_two_lines_witness :
    (2 ≤ (splitLines (pyStrip "a,b,c,d\nw,x,y,z\nnot a csv row")).length
      ∧ (splitComma ((splitLines (pyStrip "a,b,c,d\nw,x,y,z\nnot a csv row")).getD 0 "")).length
          = sampleSchema4.columns.length
      ∧ (splitComma ((splitLines (pyStrip "a,b,c,d\nw,x,y,z\nnot a csv row")).getD 1 "")).length
          = sampleSchema4.columns.length)
    ∧ validateEnhancedCsv "a,b,c,d\nw,x,y,z\nnot a csv row" sampleSchema4 = true :=
  ⟨⟨by decide, by decide, by decide⟩,
    claim_C9_validator_first_two_lines sampleSchema4 "a,b,c,d\nw,x,y,z\nnot a csv row"
      (by decide) (by decide) (by decide)⟩

/-- C5: the validator returns `false` whenever the first line's field
count differs from the schema's column count, and returns `true` on
every well-formed text of at least two lines all of whose lines split
into the header's field count, when that count equals the schema's
column count. -/
theorem claim_C5_validator_header_cardinality (S : Schema) (t₁ t₂ : String)
    (hrej : (splitComma ((splitLines (pyStrip t₁)).getD 0 "")).length ≠ S.columns.length)
    (hwf2 : 2 ≤ (splitLines (pyStrip t₂)).length)
    (hwfh : (splitComma ((splitLines (pyStrip t₂)).getD 0 "")).length = S.columns.length)
    (hwfd : ∀ l ∈ splitLines (pyStrip t₂),
      (splitComma l).length = (splitComma ((splitLines (pyStrip t₂)).getD 0 "")).length) :
    validateEnhancedCsv t₁ S = false ∧ validateEnhancedCsv t₂ S = true := by
  refine ⟨validateEnhancedCsv_rejects S t₁ hrej,
    validateEnhancedCsv_accepts S t₂ hwf2 hwfh ?_⟩
  have hlt : 1 < (splitLines (pyStrip t₂)).length := by omega
  have h1m : (splitLines (pyStrip t₂)).getD 1 "" ∈ splitLines (pyStrip t₂) := by
    rw [List.getD_eq_getElem _ _ hlt]
    exact List.getElem_mem hlt
  rw [hwfd _ h1m, hwfh]

/-- Witness for C5: a two-field text is rejected against the
four-column schema, and a well-formed four-field text is accepted. -/
theorem claim_C5_validator_header_cardinality_witness :
    ((splitComma ((splitLines (pyStrip "a,b\nc,d")).getD 0 "")).length
        ≠ sampleSchema4.columns.length
      ∧ 2 ≤ (splitLines (pyStrip "a,b,c,d\n1,2,3,4")).length
      ∧ (splitComma ((splitLines (pyStrip "a,b,c,d\n1,2,3,4")).getD 0 "")).length
          = sampleSchema4.columns.length
      ∧ ∀ l ∈ splitLines (pyStrip "a,b,c,d\n1,2,3,4"),
          (splitComma l).length
            = (splitComma ((splitLines (pyStrip "a,b,c,d\n1,2,3,4")).getD 0 "")).length)
    ∧ validateEnhancedCsv "a,b\nc,d" sampleSchema4 = false
    ∧ validateEnhancedCsv "a,b,c,d\n1,2,3,4" sampleSchema4 = true :=
  ⟨⟨by decide, by decide, by decide, by decide⟩,
    claim_C5_validator_header_cardinality sampleSchema4 "a,b\nc,d" "a,b,c,d\n1,2,3,4"
      (by decide) (by decide) (by decide) (by decide)⟩

theorem runLoop_used_eq (env : Env) (S : Schema) (numRows : Nat) (kw : String)
    (total : Nat) :
    ∀ (fuel i : Nat) (g : PyRandom) (T : Schema),
      T ∈ ((runLoop env S numRows kw total fuel i g).1).used → T = S := by
  intro fuel
  induction fuel with
  | zero => intro i g T h; simp [runLoop] at h
  | succ fuel ih =>
    intro i g T h
    rw [runLoop] at h
    by_cases hs : env.stopFlag i = true
    · simp [hs] at h
    · simp only [hs, if_false, Bool.false_eq_true] at h
      by_cases hw : env.writeOk i = true
      · simp only [hw, if_true] at h
        rcases List.mem_cons.1 h with rfl | h'
        · rfl
        · exact ih (i + 1) _ T h'
      · simp only [hw, if_false, Bool.false_eq_true, List.mem_singleton] at h
        exact h

/-- C1, corrected: no schema mutation exists in the code.  Every schema
handed to prompt building and generation during a run is the one base
schema produced by extraction (or its catalog fallback), unaltered; in
particular the base schema is indeed never mutated in place, but it is
also used unaltered for every variation — there is no rename / add /
remove / retype step anywhere. -/
theorem claim_C1_amended_no_mutation (env : Env) (kw : String)
    (numRows numVariations : Nat) :
    ∀ T ∈ (generateDatasets env kw numRows numVariations).usedSchemas,
      T = extractEnhancedSchema env.refTable kw := by
  intro T hT
  unfold generateDatasets at hT
  rcases henv : env.refStep with e | p <;> rw [henv] at hT
  · simp at hT
  · by_cases hmk : env.mkdirOk = true
    · simp only [hmk, Bool.not_true, if_false, Bool.false_eq_true] at hT
      rcases herr : (runLoop env (extractEnhancedSchema env.refTable kw) numRows kw
          numVariations numVariations 0 env.rng0).1.error with _ | e2 <;>
        rw [herr] at hT <;> simp only [] at hT <;>
        exact runLoop_used_eq env _ numRows kw numVariations numVariations 0 env.rng0 T hT
    · simp only [hmk] at hT
      simp at hT

/-- Witness for the amended C1: a concrete run, with every hypothesis
of the theorem discharged at that input. -/
theorem claim_C1_amended_no_mutation_witness :
    fallbackSchema "retail" ∈ (generateDatasets plainEnv "retail" 3 2).usedSchemas
    ∧ fallbackSchema "retail" = extractEnhancedSchema plainEnv.refTable "retail" :=
  ⟨by decide,
    claim_C1_amended_no_mutation plainEnv "retail" 3 2 (fallbackSchema "retail") (by decide)⟩

/-- Counterexample to C1 as stated: in a concrete two-variation run the
schema handed to generation is the unaltered base schema both times —
no variation receives a structurally altered copy, contradicting
"is not used unaltered for every variation". -/
theorem claim_C1_counterexample :
    (generateDatasets plainEnv "retail" 3 2).usedSchemas
      = [fallbackSchema "retail", fallbackSchema "retail"]
    ∧ extractEnhancedSchema plainEnv.refTable "retail" = fallbackSchema "retail" := by
  decide

/-- C2: `generate_datasets` always returns a `results` value — the
embedding is a total function of the environment, mirroring the
`try/except` plus `finally: return results` that absorb every internal
exception — and the elapsed-time field is written by the single seal at
run end (it equals the run's duration on every control path: success,
failure, or cooperative stop). -/
theorem claim_C2_result_always_sealed (env : Env) (kw : String)
    (numRows numVariations : Nat) :
    ∃ r : RunTrace, generateDatasets env kw numRows numVariations = r
      ∧ r.result.total_time = some env.elapsed
      ∧ r.result.keyword = kw := by
  refine ⟨_, rfl, rfl, ?_⟩
  rcases henv : env.refStep with e | p <;>
    simp only [generateDatasets, sealTime, exceptFallback, henv] <;>
    (repeat' split) <;> rfl

theorem runLoop_stops (env : Env) (S : Schema) (numRows : Nat) (kw : String)
    (total : Nat) :
    ∀ (m i fuel : Nat) (g : PyRandom),
      (∀ j, j < m → env.stopFlag (i + j) = false) →
      env.stopFlag (i + m) = true →
      (∀ j, j < m → env.writeOk (i + j) = true) →
      m < fuel →
      ∃ files statuses used g',
        runLoop env S numRows kw total fuel i g
          = (⟨files, statuses, used, true, none⟩, g')
        ∧ files.length = m ∧ used.length = m
        ∧ "Generation stopped by user" ∈ statuses := by
  intro m
  induction m with
  | zero =>
    intro i fuel g hbef hstop hwr hfuel
    cases fuel with
    | zero => omega
    | succ fuel =>
      have h0 : env.stopFlag i = true := by simpa using hstop
      rw [runLoop, h0]
      exact ⟨[], ["Generation stopped by user"], [], g, by simp, rfl, rfl, by simp⟩
  | succ m ih =>
    intro i fuel g hbef hstop hwr hfuel
    cases fuel with
    | zero => omega
    | succ fuel =>
      have h0 : env.stopFlag i = false := by simpa using hbef 0 (by omega)
      have hw : env.writeOk i = true := hwr 0 (by omega)
      obtain ⟨files, statuses, used, g', heq, hlf, hlu, hmem⟩ :=
        ih (i + 1) fuel
          (genEnhancedDataset (env.remote i) S numRows kw (i + 1) g).2
          (fun j hj => by
            have := hbef (j + 1) (by omega)
            simpa [Nat.add_assoc, Nat.add_comm 1 j] using this)
          (by
            have := hstop
            simpa [Nat.add_assoc, Nat.add_comm 1 m] using this)
          (fun j hj => by
            have := hwr (j + 1) (by omega)
            simpa [Nat.add_assoc, Nat.add_comm 1 j] using this)
          (by omega)
      rw [runLoop, h0]
      simp only [Bool.false_eq_true, if_false, hw, if_true]
      rw [heq]
      refine ⟨_, _, _, g', rfl, by simp [hlf], by simp [hlu], by simp [hmem]⟩

/-- C6: if the cooperative stop flag is observed false at the checks
heading variations `1 … k-1` and true at the check heading variation
`k ≤ n`, the run ends on the stop path ("Generation stopped by user" is
emitted and the loop breaks): exactly the `k-1` files of the earlier
variations are on disk and listed (in order), and exactly `k-1`
variations were ever started. -/
theorem claim_C6_stop_flag_halts_run (env : Env) (kw : String) (numRows k n : Nat)
    (p : String)
    (href : env.refStep = Except.ok p)
    (hmk : env.mkdirOk = true)
    (hk : 1 ≤ k) (hkn : k ≤ n)
    (hbef : ∀ i, i < k - 1 → env.stopFlag i = false)
    (hstop : env.stopFlag (k - 1) = true)
    (hwr : ∀ i, i < k - 1 → env.writeOk i = true) :
    (generateDatasets env kw numRows n).outcome = Outcome.stopped
    ∧ (generateDatasets env kw numRows n).result.generated_files.length = k - 1
    ∧ (generateDatasets env kw numRows n).fs.map Prod.fst
        = (generateDatasets env kw numRows n).result.generated_files
    ∧ (generateDatasets env kw numRows n).usedSchemas.length = k - 1
    ∧ "Generation stopped by user" ∈ (generateDatasets env kw numRows n).statuses := by
  obtain ⟨files, statuses, used, g', heq, hlf, hlu, hmem⟩ :=
    runLoop_stops env (extractEnhancedSchema env.refTable kw) numRows kw n (k - 1) 0 n env.rng0
      (fun j hj => by simpa using hbef j hj)
      (by simpa using hstop)
      (fun j hj => by simpa using hwr j hj)
      (by omega)
  unfold generateDatasets
  rw [href]
  simp only [hmk, Bool.not_true, if_false, Bool.false_eq_true, heq]
  simp [hlf, hlu, hmem, sealTime, Prod.fst]

/-- Witness for C6: the flag becomes set before variation 2 of 5, so
exactly one file is produced and the run stops. -/
theorem claim_C6_stop_flag_halts_run_witness :
    (stopEnv.refStep = Except.ok "data/reference_datasets/retail_reference.csv"
      ∧ stopEnv.mkdirOk = true ∧ 1 ≤ 2 ∧ 2 ≤ 5
      ∧ stopEnv.stopFlag 1 = true)
    ∧ ((generateDatasets stopEnv "retail" 3 5).outcome = Outcome.stopped
      ∧ (generateDatasets stopEnv "retail" 3 5).result.generated_files.length = 1
      ∧ (generateDatasets stopEnv "retail" 3 5).fs.map Prod.fst
          = (generateDatasets stopEnv "retail" 3 5).result.generated_files
      ∧ (generateDatasets stopEnv "retail" 3 5).usedSchemas.length = 1
      ∧ "Generation stopped by user" ∈ (generateDatasets stopEnv "retail" 3 5).statuses) :=
  ⟨⟨rfl, rfl, by omega, by omega, rfl⟩,
    claim_C6_stop_flag_halts_run stopEnv "retail" 3 2 5
      "data/reference_datasets/retail_reference.csv" rfl rfl (by omega) (by omega)
      (fun i hi => by
        have h0 : i = 0 := by omega
        subst h0; rfl)
      rfl
      (fun i hi => rfl)⟩

/-- C8, corrected: the built-in fallback catalog does satisfy the 2–20
column bound with unique names, but schema extraction copies exactly one
column per reference column and enforces no bound at all, so a
one-column (or 21-column) reference file yields a schema outside the
claimed invariant; variation schemas are the base schema itself. -/
theorem claim_C8_amended_schema_bounds (kw : String) (t : RefTable) :
    (2 ≤ (fallbackSchema kw).columns.length
      ∧ (fallbackSchema kw).columns.length ≤ 20
      ∧ ((fallbackSchema kw).columns.map (·.name)).Nodup)
    ∧ (extractFromTable t kw).columns.length = t.cols.length := by
  constructor
  · unfold fallbackSchema
    split
    · refine ⟨by decide, by decide, by decide⟩
    · split
      · refine ⟨by decide, by decide, by decide⟩
      · refine ⟨?_, ?_, ?_⟩ <;> simp
  · simp [extractFromTable]

/-- Counterexample to C8 as stated: a perfectly readable one-column
reference file produces a pipeline schema with a single column,
violating the claimed `2 ≤ columns` lower bound. -/
theorem claim_C8_counterexample :
    (extractEnhancedSchema (some oneColumnTable) "sales").columns.length = 1
    ∧ ¬ 2 ≤ (extractEnhancedSchema (some oneColumnTable) "sales").columns.length := by
  decide

/-- C10: `search_datasets` is a total function of the API outcome — an
exception in the underlying list call (modelled by `none`) yields the
empty list, a per-dataset failure merely skips that dataset — and the
returned list never exceeds the configured `max_results`
(default 5). -/
theorem claim_C10_search_never_raises_capped (cfg : KConfig)
    (apiResult : Option (List KDataset)) :
    (searchDatasets cfg apiResult).length ≤ cfg.max_results.getD 5
    ∧ searchDatasets cfg none = [] := by
  constructor
  · cases apiResult with
    | none => simp [searchDatasets]
    | some ds =>
      unfold searchDatasets
      simp only []
      exact List.length_take_le _ _
  · rfl

theorem digitChar_ne_nl (d : Nat) : digitChar d ≠ '\n' := by
  unfold digitChar; split <;> decide

theorem noNL_natStr (n : Nat) : noNL (natStr n) := by
  have aux : ∀ fuel m, '\n' ∉ natDigitsAux fuel m := by
    intro fuel
    induction fuel with
    | zero => intro m h; simp [natDigitsAux] at h
    | succ fuel ih =>
      intro m
      rw [natDigitsAux]
      by_cases h : m < 10
      · simp only [h, if_true, List.mem_singleton]
        exact fun hc => digitChar_ne_nl m hc.symm
      · simp only [h, if_false, List.mem_append, List.mem_singleton]
        rintro (h1 | h2)
        · exact ih (m / 10) h1
        · exact digitChar_ne_nl (m % 10) h2.symm
  exact aux (n + 1) n

theorem noNL_append (a b : String) (ha : noNL a) (hb : noNL b) : noNL (a ++ b) := by
  unfold noNL at *
  intro h
  rw [show (a ++ b).data = a.data ++ b.data from rfl] at h
  rcases List.mem_append.1 h with h | h
  exacts [ha h, hb h]

theorem noNL_pad2 (n : Nat) : noNL (pad2 n) := by
  unfold pad2; split
  · exact noNL_append _ _ (by decide) (noNL_natStr n)
  · exact noNL_natStr n

theorem noNL_pad4 (n : Nat) : noNL (pad4 n) := by
  unfold pad4
  split
  · exact noNL_append _ _ (by decide) (noNL_natStr n)
  · split
    · exact noNL_append _ _ (by decide) (noNL_natStr n)
    · split
      · exact noNL_append _ _ (by decide) (noNL_natStr n)
      · exact noNL_natStr n

theorem noNL_fmt2f (n : Nat) : noNL (fmt2f n) :=
  noNL_append _ _ (noNL_append _ _ (noNL_natStr _) (by decide)) (noNL_pad2 _)

theorem noNL_fmt1f (n : Nat) : noNL (fmt1f n) :=
  noNL_append _ _ (noNL_append _ _ (noNL_natStr _) (by decide)) (noNL_natStr _)

theorem noNL_getD (xs : List String) (i : Nat) (d : String)
    (h : ∀ x ∈ xs, noNL x) (hd : noNL d) : noNL (xs.getD i d) := by
  by_cases hi : i < xs.length
  · rw [List.getD_eq_getElem _ _ hi]
    exact h _ (List.getElem_mem hi)
  · rw [List.getD_eq_default _ _ (by omega)]
    exact hd

theorem noNL_pyChoice (xs : List String) (g : PyRandom)
    (h : ∀ x ∈ xs, noNL x) : noNL (pyChoice xs g).1 := by
  unfold pyChoice
  exact noNL_getD _ _ _ h (by decide)

theorem noNL_pyUniform2f (a b : Nat) (g : PyRandom) : noNL (pyUniform2f a b g).1 :=
  noNL_fmt2f _

theorem noNL_pyUniform1f (a b : Nat) (g : PyRandom) : noNL (pyUniform1f a b g).1 :=
  noNL_fmt1f _

theorem noNL_genDate (g : PyRandom) : noNL (genDate g).1 := by
  unfold genDate
  exact noNL_append _ _
    (noNL_append _ _ (noNL_append _ _ (by decide) (noNL_pad2 _)) (by decide)) (noNL_pad2 _)

theorem noNL_genHealthcareValue (n t : String) (s : Nat) (g : PyRandom) :
    noNL (genHealthcareValue n t s g).1 := by
  unfold genHealthcareValue
  split
  · exact noNL_natStr _
  · split
    · exact noNL_natStr _
    · split
      · exact noNL_pyChoice _ _ (by decide)
      · split
        · exact noNL_pyUniform2f _ _ _
        · split
          · exact noNL_genDate _
          · exact noNL_append _ _ (by decide) (noNL_natStr _)

theorem noNL_genFinanceValue (n t : String) (s : Nat) (g : PyRandom) :
    noNL (genFinanceValue n t s g).1 := by
  unfold genFinanceValue
  split
  · exact noNL_append _ _ (by decide) (noNL_pad4 _)
  · split
    · exact noNL_pyUniform2f _ _ _
    · split
      · exact noNL_pyChoice _ _ (by decide)
      · split
        · exact noNL_pyChoice _ _ (by decide)
        · split
          · exact noNL_genDate _
          · exact noNL_append _ _ (by decide) (noNL_natStr _)

theorem noNL_genEducationValue (n t : String) (s : Nat) (g : PyRandom) :
    noNL (genEducationValue n t s g).1 := by
  unfold genEducationValue
  split
  · exact noNL_append _ _ (by decide) (noNL_pad4 _)
  · split
    · exact noNL_pyUniform1f _ _ _
    · split
      · exact noNL_pyChoice _ _ (by decide)
      · split
        · exact noNL_pyChoice _ _ (by decide)
        · split
          · exact noNL_pyChoice _ _ (by decide)
          · exact noNL_append _ _ (by decide) (noNL_natStr _)

theorem noNL_genGenericValue (n t : String) (s : Nat) (g : PyRandom) :
    noNL (genGenericValue n t s g).1 := by
  unfold genGenericValue
  split
  · exact noNL_natStr _
  · split
    · exact noNL_append _ _ (by decide) (noNL_natStr _)
    · split
      · exact noNL_append _ _
          (noNL_append _ _ (noNL_append _ _ (by decide) (noNL_natStr _)) (by decide))
          (noNL_pyChoice _ _ (by decide))
      · split
        · exact noNL_natStr _
        · split
          · exact noNL_pyUniform2f _ _ _
          · split
            · exact noNL_genDate _
            · exact noNL_append _ _ (by decide) (noNL_natStr _)

theorem noNL_genEnhancedValue (col : ColumnSpec) (rowNum : Nat) (kw : String)
    (v : Nat) (g : PyRandom) : noNL (genEnhancedValue col rowNum kw v g).1 := by
  unfold genEnhancedValue
  split
  · exact noNL_genHealthcareValue _ _ _ _
  · split
    · exact noNL_genFinanceValue _ _ _ _
    · split
      · exact noNL_genEducationValue _ _ _ _
      · exact noNL_genGenericValue _ _ _ _

theorem noNL_pyJoin (sep : String) (hsep : noNL sep) :
    ∀ xs : List String, (∀ x ∈ xs, noNL x) → noNL (pyJoin sep xs) := by
  intro xs
  induction xs with
  | nil => intro _; exact (by decide : noNL "")
  | cons x xs ih =>
    intro h
    cases xs with
    | nil => exact h x (by simp)
    | cons y ys =>
      rw [show pyJoin sep (x :: y :: ys) = x ++ sep ++ pyJoin sep (y :: ys) from rfl]
      exact noNL_append _ _ (noNL_append _ _ (h x (by simp)) hsep)
        (ih fun z hz => h z (by simp [hz]))

theorem buildRowValues_noNL (rowNum : Nat) (kw : String) (v : Nat) :
    ∀ (cols : List ColumnSpec) (g : PyRandom),
      ∀ s ∈ (buildRowValues cols rowNum kw v g).1, noNL s := by
  intro cols
  induction cols with
  | nil => intro g s h; simp [buildRowValues] at h
  | cons c rest ih =>
    intro g s h
    rw [buildRowValues] at h
    simp only [List.mem_cons] at h
    rcases h with rfl | h
    · exact noNL_genEnhancedValue _ _ _ _ _
    · exact ih _ s h

theorem buildRows_length (cols : List ColumnSpec) (kw : String) (v : Nat) :
    ∀ (count rowNum : Nat) (g : PyRandom),
      ((buildRows cols kw v count rowNum g).1).length = count := by
  intro count
  induction count with
  | zero => intro rowNum g; rfl
  | succ count ih =>
    intro rowNum g
    rw [buildRows]
    simp only [List.length_cons]
    rw [ih]

theorem buildRows_noNL (cols : List ColumnSpec) (kw : String) (v : Nat) :
    ∀ (count rowNum : Nat) (g : PyRandom),
      ∀ row ∈ (buildRows cols kw v count rowNum g).1, noNL row := by
  intro count
  induction count with
  | zero => intro rowNum g row h; simp [buildRows] at h
  | succ count ih =>
    intro rowNum g row h
    rw [buildRows] at h
    simp only [List.mem_cons] at h
    rcases h with rfl | h
    · exact noNL_pyJoin "," (by decide) _ (buildRowValues_noNL rowNum kw v cols g)
    · exact ih _ _ row h

theorem splitCharList_of_not_mem (sep : Char) (cs : List Char) (h : sep ∉ cs) :
    splitCharList sep cs = [⟨cs⟩] := by
  induction cs with
  | nil => rfl
  | cons c cs ih =>
    have hc : ¬ c = sep := fun hcs => h (hcs ▸ List.mem_cons_self c cs)
    have hrest : splitCharList sep cs = [⟨cs⟩] := ih fun hm => h (List.mem_cons_of_mem c hm)
    rw [splitCharList]
    simp only [if_neg hc, hrest]

theorem splitCharList_append_sep (sep : Char) (xs ys : List Char) (h : sep ∉ xs) :
    splitCharList sep (xs ++ sep :: ys) = ⟨xs⟩ :: splitCharList sep ys := by
  induction xs with
  | nil =>
    rw [List.nil_append, splitCharList]
    simp
  | cons c cs ih =>
    have hc : ¬ c = sep := fun hcs => h (hcs ▸ List.mem_cons_self c cs)
    have hrest := ih fun hm => h (List.mem_cons_of_mem c hm)
    rw [List.cons_append, splitCharList]
    simp only [if_neg hc, hrest]

theorem splitLines_pyJoin (ls : List String) (hne : ls ≠ [])
    (h : ∀ l ∈ ls, noNL l) : splitLines (pyJoin "\n" ls) = ls := by
  induction ls with
  | nil => exact absurd rfl hne
  | cons x xs ih =>
    cases xs with
    | nil =>
      rw [show pyJoin "\n" [x] = x from rfl, splitLines]
      rw [splitCharList_of_not_mem '\n' x.data (h x (by simp))]
    | cons y ys =>
      rw [show pyJoin "\n" (x :: y :: ys) = x ++ "\n" ++ pyJoin "\n" (y :: ys) from rfl,
        splitLines]
      rw [show (x ++ "\n" ++ pyJoin "\n" (y :: ys)).data
          = x.data ++ '\n' :: (pyJoin "\n" (y :: ys)).data from by
        simp [show (x ++ "\n" ++ pyJoin "\n" (y :: ys)).data
            = (x.data ++ ['\n']) ++ (pyJoin "\n" (y :: ys)).data from rfl]]
      rw [splitCharList_append_sep '\n' _ _ (h x (by simp))]
      have := ih (by simp) (fun z hz => h z (by simp [hz]))
      rw [splitLines] at this
      rw [this]

/-- C4, corrected (fallback part): a file produced by the programmatic
fallback consists of exactly the comma-joined column names as its first
line followed by exactly `min(requestedRows, 200)` generated data rows,
for every schema with at least one (newline-free-named) column. -/
theorem claim_C4_amended_fallback_file_shape (S : Schema) (numRows : Nat)
    (kw : String) (v : Nat) (g : PyRandom) (hne : S.columns ≠ [])
    (hnames : ∀ c ∈ S.columns, noNL c.name) :
    ∃ rows, splitLines (genProgrammaticEnhanced S numRows kw v g).1
        = pyJoin "," (S.columns.map (·.name)) :: rows
      ∧ rows.length = min numRows 200 := by
  refine ⟨(buildRows S.columns kw v (min numRows 200) 0 g).1, ?_,
    buildRows_length S.columns kw v (min numRows 200) 0 g⟩
  unfold genProgrammaticEnhanced
  rw [if_neg (by simpa [List.isEmpty_iff] using hne)]
  simp only []
  apply splitLines_pyJoin
  · simp
  · intro l hl
    rcases List.mem_cons.1 hl with rfl | hl
    · refine noNL_pyJoin "," (by decide) _ ?_
      intro nm hnm
      rcases List.mem_map.1 hnm with ⟨c, hc, rfl⟩
      exact hnames c hc
    · exact buildRows_noNL S.columns kw v _ _ g l hl

/-- Witness for the amended C4 at a concrete schema and row count. -/
theorem claim_C4_amended_fallback_file_shape_witness :
    (sampleSchema4.columns ≠ [] ∧ ∀ c ∈ sampleSchema4.columns, noNL c.name)
    ∧ ∃ rows, splitLines (genProgrammaticEnhanced sampleSchema4 3 "retail" 1 ⟨7⟩).1
        = pyJoin "," (sampleSchema4.columns.map (·.name)) :: rows
      ∧ rows.length = min 3 200 :=
  ⟨⟨by decide, by decide⟩,
    claim_C4_amended_fallback_file_shape sampleSchema4 3 "retail" 1 ⟨7⟩
      (by decide) (by decide)⟩

/-- Counterexample to C4 as stated: a sufficiently long remote response
that survives cleaning and validation is persisted as the variation's
file content as-is; at `numRows = 500` the persisted text has 2 data
rows, not `min(500, cap)` for any cap in the code (200 or 100), and its
header is not the schema's comma-joined column names. -/
theorem claim_C4_counterexample :
    (genEnhancedDataset (some sampleRemote) sampleSchema4 500 "retail" 1 ⟨0⟩).1 = sampleRemote
    ∧ (splitLines sampleRemote).length - 1 = 2
    ∧ ¬ (2 = min 500 200)
    ∧ (splitLines sampleRemote).getD 0 "" ≠ pyJoin "," (sampleSchema4.columns.map (·.name)) := by
  decide

theorem cleanStep_length_le (e : Nat) (l : String) (hf : Bool) (acc : List String) :
    acc.length ≤ (cleanStep e l hf acc).length := by
  unfold cleanStep
  split
  · split
    · split <;> simp
    · simp
  · simp

theorem cleanLoop_length_mono (e : Nat) :
    ∀ (lines : List String) (hf : Bool) (acc : List String),
      acc.length ≤ (cleanLoop e lines hf acc).length := by
  intro lines
  induction lines with
  | nil => intro hf acc; simp [cleanLoop]
  | cons l rest ih =>
    intro hf acc
    rw [cleanLoop]
    split
    · calc acc.length ≤ (cleanStep e l hf acc).length := cleanStep_length_le e l hf acc
        _ = (cleanStep e l hf acc).reverse.length := by simp
    · calc acc.length ≤ (cleanStep e l hf acc).length := cleanStep_length_le e l hf acc
        _ ≤ _ := ih _ _

theorem cleanLoop_expected_lt2 (e : Nat) (he : e < 2) :
    ∀ (lines : List String) (hf : Bool) (acc : List String),
      cleanLoop e lines hf acc = acc.reverse := by
  intro lines
  induction lines with
  | nil => intro hf acc; rfl
  | cons l rest ih =>
    intro hf acc
    have hsel : cleanSelect e l = false := by
      unfold cleanSelect
      by_cases hc : containsComma l = true
      · have h2l : 2 ≤ (splitComma l).length := (two_le_splitComma_iff l).2 hc
        have hb : ((splitComma l).length == e) = false := by
          simp only [beq_eq_false_iff_ne, ne_eq]
          omega
        simp [hb]
      · simp only [Bool.not_eq_true] at hc
        simp [hc]
    have hstep : cleanStep e l hf acc = acc := by
      unfold cleanStep
      rw [hsel]
      simp
    rw [cleanLoop]
    simp only [hstep, hsel, Bool.or_false]
    split
    · rfl
    · exact ih hf acc

theorem cleanCsvLine_eq_of_startsAlnum (m : String)
    (hs : startsAlnum m = true) (hc : 2 ≤ (splitComma m).length) :
    cleanCsvLine m = some ⟨m.data.filter isCleanSafe⟩ := by
  unfold cleanCsvLine
  have hl1 : (match m.data with
      | [] => m
      | c :: rest => if isAlnumAscii c then m else (⟨rest⟩ : String)) = m := by
    unfold startsAlnum at hs
    cases hm : m.data with
    | nil => rw [hm] at hs
    | cons c cs =>
      rw [hm] at hs
      have hs' : isAlnumAscii c = true := hs
      simp [hs']
  rw [hl1]
  have hcount : 2 ≤ (splitComma ⟨m.data.filter isCleanSafe⟩).length := by
    have := splitComma_filter_cleanSafe m.data
    rw [show (⟨m.data⟩ : String) = m from rfl] at this
    omega
  have hcc : containsComma ⟨m.data.filter isCleanSafe⟩ = true :=
    (two_le_splitComma_iff _).1 hcount
  rw [if_pos]
  simp only [hcc, Bool.true_and, decide_eq_true_eq]
  exact hcount

theorem cleanLoop_cons (e : Nat) (l : String) (rest : List String) (hf : Bool)
    (acc : List String) :
    cleanLoop e (l :: rest) hf acc =
      if 101 < (cleanStep e l hf acc).length then (cleanStep e l hf acc).reverse
      else cleanLoop e rest (hf || cleanSelect e l) (cleanStep e l hf acc) := rfl

/-- C7, corrected: re-running the cleaning-and-validation step on an
accepted output is `Valid` again provided the cleaned text's first two
lines still split into the schema's column count and its second line
(stripped) begins with an alphanumeric character.  Without that proviso
idempotence fails — see the counterexample, where a data line accepted
with a leading delimiter loses a field when cleaned and is dropped on
the second pass. -/
theorem claim_C7_amended_cleaning_reaccepted (S : Schema) (raw out : String)
    (h1 : cleanAndValidateCsv raw S = some out)
    (h3 : 2 ≤ (splitLines (pyStrip out)).length)
    (h0 : (splitComma ((splitLines (pyStrip out)).getD 0 "")).length = S.columns.length)
    (h2 : (splitComma ((splitLines (pyStrip out)).getD 1 "")).length = S.columns.length)
    (h4 : startsAlnum (pyStrip ((splitLines (pyStrip out)).getD 1 "")) = true) :
    (cleanAndValidateCsv out S).isSome = true := by
  have he2 : 2 ≤ S.columns.length := by
    by_contra hlt
    push_neg at hlt
    have hz := cleanLoop_expected_lt2 S.columns.length (by omega)
      (splitLines (pyStrip raw)) false []
    simp only [cleanAndValidateCsv] at h1
    rw [hz] at h1
    simp at h1
  obtain ⟨l0, tl, hls⟩ : ∃ l0 tl, splitLines (pyStrip out) = l0 :: tl := by
    cases h : splitLines (pyStrip out) with
    | nil => rw [h] at h3; simp at h3
    | cons a b => exact ⟨a, b, rfl⟩
  obtain ⟨l1, rest, htl⟩ : ∃ l1 rest, tl = l1 :: rest := by
    cases h : tl with
    | nil => rw [h] at hls; rw [hls] at h3; simp at h3
    | cons a b => exact ⟨a, b, rfl⟩
  subst htl
  rw [hls] at h0 h2 h4
  rw [List.getD_cons_zero] at h0
  rw [List.getD_cons_succ, List.getD_cons_zero] at h2 h4
  have hsel0 : cleanSelect S.columns.length l0 = true := by
    unfold cleanSelect
    have hcc : containsComma l0 = true := (two_le_splitComma_iff l0).1 (by omega)
    simp [hcc, h0]
  have hsel1 : cleanSelect S.columns.length l1 = true := by
    unfold cleanSelect
    have hcc : containsComma l1 = true := (two_le_splitComma_iff l1).1 (by omega)
    simp [hcc, h2]
  have hcl : cleanCsvLine (pyStrip l1) = some ⟨(pyStrip l1).data.filter isCleanSafe⟩ :=
    cleanCsvLine_eq_of_startsAlnum _ h4 (by rw [splitComma_pyStrip]; omega)
  have hstep0 : cleanStep S.columns.length l0 false [] = [pyStrip l0] := by
    unfold cleanStep
    rw [hsel0]
    simp
  have hstep1 : cleanStep S.columns.length l1 (false || cleanSelect S.columns.length l0)
      [pyStrip l0] = [⟨(pyStrip l1).data.filter isCleanSafe⟩, pyStrip l0] := by
    unfold cleanStep
    rw [hsel1, hsel0]
    simp [hcl]
  simp only [cleanAndValidateCsv]
  rw [hls]
  rw [cleanLoop_cons]
  rw [hstep0]
  rw [if_neg (show ¬ 101 < ([pyStrip l0] : List String).length by simp)]
  rw [cleanLoop_cons]
  rw [hstep1]
  rw [if_neg (show ¬ 101 <
    ([⟨(pyStrip l1).data.filter isCleanSafe⟩, pyStrip l0] : List String).length by simp)]
  have hmono := cleanLoop_length_mono S.columns.length rest
    ((false || cleanSelect S.columns.length l0) || cleanSelect S.columns.length l1)
    [⟨(pyStrip l1).data.filter isCleanSafe⟩, pyStrip l0]
  rw [if_pos (by simpa using hmono)]
  simp

/-- Witness for the amended C7: an accepted output that is already
clean is accepted again on the second pass. -/
theorem claim_C7_amended_cleaning_reaccepted_witness :
    (cleanAndValidateCsv "name,age,city\nabc,12,xyz" sampleSchema3
        = some "name,age,city\nabc,12,xyz"
      ∧ 2 ≤ (splitLines (pyStrip "name,age,city\nabc,12,xyz")).length
      ∧ startsAlnum (pyStrip ((splitLines
          (pyStrip "name,age,city\nabc,12,xyz")).getD 1 "")) = true)
    ∧ (cleanAndValidateCsv "name,age,city\nabc,12,xyz" sampleSchema3).isSome = true :=
  ⟨⟨by decide, by decide, by decide⟩,
    claim_C7_amended_cleaning_reaccepted sampleSchema3
      "name,age,city\nabc,12,xyz" "name,age,city\nabc,12,xyz"
      (by decide) (by decide) (by decide) (by decide) (by decide)⟩

/-- Counterexample to C7 as stated: against a three-column schema the
raw line ",ab,cd" is selected (three fields) but cleaning strips its
leading comma, so the accepted output contains the two-field data line
"ab,cd"; re-running the cleaning-and-validation step on that accepted
output rejects it (`none`), refuting idempotence. -/
theorem claim_C7_counterexample :
    cleanAndValidateCsv "name,age,city\n,ab,cd" sampleSchema3
      = some "name,age,city\nab,cd"
    ∧ cleanAndValidateCsv "name,age,city\nab,cd" sampleSchema3 = none := by
  decide

end DataForge
